import Mathlib

/-!
# GlowMatch skin-tone analysis: a shallow embedding

This file embeds the core decision logic of the GlowMatch ML service
(`ml-service/app/ml_service.py`, `ml-service/app/config/skin_tone_enums.py`,
`ml-service/app/config/extended_analyzer.py`) as Lean definitions and proves
properties of the embedded functions.

Conventions of the embedding:
* NumPy/Python floats are modelled as rationals (`ℚ`); Python `int(x)`
  truncation toward zero is `truncQ`, Python float `%` is `pyMod`, Python
  `round` (banker's rounding) is `pyRound`.
* Images enter the pipeline through the values the OpenCV primitives produce:
  the HSV image is a function `ℕ → ℕ → ℚ × ℚ × ℚ` (row, col ↦ (H, S, V)) and
  the skin mask after the HSV range filter and the morphological
  closing/opening is a function `ℕ → ℕ → ℕ`; only the logic written in the
  repository itself (box arithmetic, mask restriction, statistics,
  classification, response assembly) is re-expressed in Lean.
* `np.std` appears in the code only as an input to the confidence formula; the
  pipeline is parametrised by the standard-deviation routine `np_std` so that
  every theorem about control flow holds for every possible value it returns.
-/

/-- Python `int(x)` on a rational: truncation toward zero. -/
def truncQ (q : ℚ) : ℤ := if 0 ≤ q then ⌊q⌋ else ⌈q⌉

/-- Python float `%` for a positive modulus: result lies in `[0, b)`. -/
def pyMod (a b : ℚ) : ℚ := a - b * ⌊a / b⌋

/-- Round a rational to the nearest integer, ties to even (Python `round`). -/
def roundHalfEven (q : ℚ) : ℤ :=
  let f := ⌊q⌋
  if q - f < 1/2 then f
  else if q - f > 1/2 then f + 1
  else if Even f then f else f + 1

/-- Python `round(q, ndigits)` on a rational. -/
def pyRound (q : ℚ) (ndigits : ℕ) : ℚ :=
  (roundHalfEven (q * 10 ^ ndigits) : ℚ) / 10 ^ ndigits

/-- `np.mean` on a list of rationals (0 on the empty list, as a convention;
every use below is guarded by non-emptiness where the source requires it). -/
def np_mean (xs : List ℚ) : ℚ := xs.sum / xs.length

/- ==================== ml_service.py: hue-range constants ==================== -/

/-- `SkinToneAnalyzer.WARM_HUE_RANGE = (0, 35)`. -/
def WARM_HUE_RANGE : ℚ × ℚ := (0, 35)

/-- `SkinToneAnalyzer.NEUTRAL_HUE_RANGE = (35, 60)`. -/
def NEUTRAL_HUE_RANGE : ℚ × ℚ := (35, 60)

/-- `SkinToneAnalyzer.COOL_HUE_RANGE = (340, 360)`. -/
def COOL_HUE_RANGE : ℚ × ℚ := (340, 360)

/- ==================== ml_service.py: legacy classifiers ==================== -/

/-- `SkinToneAnalyzer._classify_depth`: mean of the V-channel samples against
the legacy 3-way thresholds. -/
def classify_depth (value_values : List ℚ) : String :=
  let mean_value := np_mean value_values
  if mean_value > 166 then "Fair"
  else if mean_value > 115 then "Medium"
  else "Dark"

/-- `SkinToneAnalyzer._classify_undertone`: rescale OpenCV hue (0-180) to
degrees, take the mean, subtract 360 when the mean exceeds 180, then test the
Warm/Neutral/Cool ranges in order, defaulting to Neutral.  Returns the
undertone together with the (post-subtraction) mean hue, as the source does. -/
def classify_undertone (hue_values : List ℚ) : String × ℚ :=
  let hue_degrees := hue_values.map (fun hv => hv / 180 * 360)
  let mean_hue0 := np_mean hue_degrees
  let mean_hue := if mean_hue0 > 180 then mean_hue0 - 360 else mean_hue0
  let undertone :=
    if WARM_HUE_RANGE.1 ≤ mean_hue ∧ mean_hue ≤ WARM_HUE_RANGE.2 then "Warm"
    else if NEUTRAL_HUE_RANGE.1 ≤ mean_hue ∧ mean_hue ≤ NEUTRAL_HUE_RANGE.2 then "Neutral"
    else if COOL_HUE_RANGE.1 ≤ mean_hue ∨ mean_hue ≤ COOL_HUE_RANGE.2 - 360 then "Cool"
    else "Neutral"
  (undertone, mean_hue)

/-- `SkinToneAnalyzer._calculate_confidence`.  The source computes
`np.std(value_values)` and `len(hue_values)`; the embedding takes those two
quantities directly (`value_std` is the standard deviation, a nonnegative
real in the source, and `num_pixels` the masked-pixel count). -/
def calculate_confidence (value_std : ℚ) (num_pixels : ℕ) : ℚ :=
  let value_std_norm := value_std / 255
  let confidence := max 0 (1 - value_std_norm)
  if num_pixels > 500 then min 1 (confidence + 1/10) else confidence

/- ==================== skin_tone_enums.py: SkinDepth ==================== -/

/-- `SkinDepth` enumeration (6 extended levels). -/
inductive SkinDepth where
  | VERY_FAIR
  | FAIR
  | MEDIUM
  | TAN
  | DARK
  | DEEP
deriving DecidableEq, BEq, Repr

/-- The `.value` string of each `SkinDepth` member. -/
def SkinDepth.value : SkinDepth → String
  | .VERY_FAIR => "Very Fair"
  | .FAIR => "Fair"
  | .MEDIUM => "Medium"
  | .TAN => "Tan"
  | .DARK => "Dark"
  | .DEEP => "Deep"

/-- `SkinDepth.from_value`: classify depth from a V-channel value. -/
def SkinDepth.from_value (value : ℤ) : SkinDepth :=
  if value > 210 then .VERY_FAIR
  else if value > 180 then .FAIR
  else if value > 140 then .MEDIUM
  else if value > 100 then .TAN
  else if value > 60 then .DARK
  else .DEEP

/-- `SkinDepth.get_level`: dictionary lookup on the `.value` string with
default 3, as in the source. -/
def SkinDepth.get_level (d : SkinDepth) : ℕ :=
  (List.lookup d.value
    [("Very Fair", 1), ("Fair", 2), ("Medium", 3),
     ("Tan", 4), ("Dark", 5), ("Deep", 6)]).getD 3

/-- `SkinDepth.get_percentile`: dictionary lookup on the `.value` string with
default `(39, 55)`, as in the source. -/
def SkinDepth.get_percentile (d : SkinDepth) : ℕ × ℕ :=
  (List.lookup d.value
    [("Very Fair", (82, 100)), ("Fair", (71, 82)), ("Medium", (55, 71)),
     ("Tan", (39, 55)), ("Dark", (24, 39)), ("Deep", (0, 24))]).getD (39, 55)

/- ==================== skin_tone_enums.py: Undertone ==================== -/

/-- `Undertone` enumeration (5 extended types). -/
inductive Undertone where
  | WARM
  | COOL
  | NEUTRAL
  | OLIVE
  | GOLDEN
deriving DecidableEq, BEq, Repr

/-- The `.value` string of each `Undertone` member. -/
def Undertone.value : Undertone → String
  | .WARM => "Warm"
  | .COOL => "Cool"
  | .NEUTRAL => "Neutral"
  | .OLIVE => "Olive"
  | .GOLDEN => "Golden"

/-- `Undertone.from_hue`: normalize the hue with `% 360`, then test the
ranges in the order the source checks them. -/
def Undertone.from_hue (hue_degrees : ℚ) : Undertone :=
  let hue := pyMod hue_degrees 360
  if (0 ≤ hue ∧ hue ≤ 30) ∨ hue = 360 then .WARM
  else if 30 < hue ∧ hue ≤ 60 then .NEUTRAL
  else if 60 < hue ∧ hue ≤ 90 then .OLIVE
  else if 90 < hue ∧ hue ≤ 120 then .GOLDEN
  else if 330 ≤ hue ∧ hue < 360 then .COOL
  else .NEUTRAL

/-- `Undertone.is_cool_spectrum`: membership in `[COOL, OLIVE]`. -/
def Undertone.is_cool_spectrum (u : Undertone) : Bool :=
  [Undertone.COOL, Undertone.OLIVE].contains u

/-- `Undertone.is_warm_spectrum`: membership in `[WARM, GOLDEN]`. -/
def Undertone.is_warm_spectrum (u : Undertone) : Bool :=
  [Undertone.WARM, Undertone.GOLDEN].contains u

/- ==================== extended_analyzer.py ==================== -/

/-- `ExtendedSkinToneAnalyzer._classify_depth_extended`: the mean V value is
truncated to an int (`int(mean_value)`) and classified with
`SkinDepth.from_value`; level and percentile ride along. -/
def classify_depth_extended (value_values : List ℚ) : SkinDepth × ℕ × (ℕ × ℕ) :=
  let mean_value := np_mean value_values
  let depth_enum := SkinDepth.from_value (truncQ mean_value)
  (depth_enum, depth_enum.get_level, depth_enum.get_percentile)

/-- `ExtendedSkinToneAnalyzer._classify_undertone_extended`: rescale OpenCV
hue to degrees, take the mean mod 360, classify with `Undertone.from_hue`. -/
def classify_undertone_extended (hue_values : List ℚ) : Undertone × ℚ × Bool :=
  let hue_degrees := hue_values.map (fun hv => hv / 180 * 360)
  let mean_hue := pyMod (np_mean hue_degrees) 360
  let undertone_enum := Undertone.from_hue mean_hue
  (undertone_enum, mean_hue, undertone_enum.is_cool_spectrum)

/-- `ExtendedSkinToneAnalyzer.map_to_legacy`: two dictionary lookups with
defaults `'Medium'` and `'Neutral'`, transcribed as association lists. -/
def map_to_legacy (depth : SkinDepth) (undertone : Undertone) : String × String :=
  let legacy_depth_map : List (SkinDepth × String) :=
    [(.VERY_FAIR, "Fair"), (.FAIR, "Fair"), (.MEDIUM, "Medium"),
     (.TAN, "Medium"), (.DARK, "Dark"), (.DEEP, "Dark")]
  let legacy_undertone_map : List (Undertone × String) :=
    [(.WARM, "Warm"), (.COOL, "Cool"), (.NEUTRAL, "Neutral"),
     (.OLIVE, "Neutral"), (.GOLDEN, "Warm")]
  ((legacy_depth_map.lookup depth).getD "Medium",
   (legacy_undertone_map.lookup undertone).getD "Neutral")

/-- Spec-side restatement of the legacy depth column of the C8 table
(`VeryFair/Fair → Fair, Medium/Tan → Medium, Dark/Deep → Dark`), written from
the spec's words for comparison with `map_to_legacy`. -/
def spec_legacy_depth : SkinDepth → String
  | .VERY_FAIR => "Fair"
  | .FAIR => "Fair"
  | .MEDIUM => "Medium"
  | .TAN => "Medium"
  | .DARK => "Dark"
  | .DEEP => "Dark"

/-- Spec-side restatement of the legacy undertone column of the C8 table
(`Warm/Golden → Warm, Cool → Cool, Neutral/Olive → Neutral`), written from
the spec's words for comparison with `map_to_legacy`. -/
def spec_legacy_undertone : Undertone → String
  | .WARM => "Warm"
  | .COOL => "Cool"
  | .NEUTRAL => "Neutral"
  | .OLIVE => "Neutral"
  | .GOLDEN => "Warm"

/- ==================== ml_service.py: face detection ==================== -/

/-- One MediaPipe detection: the relative bounding box
(`location_data.relative_bounding_box`) and the detection score. -/
structure Detection where
  xmin : ℚ
  ymin : ℚ
  width : ℚ
  height : ℚ
  score : ℚ
deriving DecidableEq, Repr

/-- The face dictionary built by the detectors:
`{x, y, width, height, confidence}` in absolute pixel coordinates. -/
structure FaceBox where
  x : ℤ
  y : ℤ
  width : ℤ
  height : ℤ
  confidence : ℚ
deriving DecidableEq, Repr

/-- `SkinToneAnalyzer._detect_faces` (MediaPipe path), as a function of the
image size and the detection list the MediaPipe model returned: relative
coordinates are scaled to pixels and truncated with `int(...)`, the origin is
clamped with `max(0, ...)`, and the score is passed through unchanged. -/
def detect_faces (w h : ℕ) (detections : List Detection) : List FaceBox :=
  detections.map (fun d =>
    let x := truncQ (d.xmin * w)
    let y := truncQ (d.ymin * h)
    let width := truncQ (d.width * w)
    let height := truncQ (d.height * h)
    { x := max 0 x, y := max 0 y, width := width, height := height,
      confidence := d.score })

/-- `SkinToneAnalyzer._detect_faces_cascade` (Haar-cascade fallback), as a
function of the `(x, y, w, h)` rectangles `detectMultiScale` returned
(nonnegative machine integers): every face gets the constant confidence
`0.9`. -/
def detect_faces_cascade (faces_cv : List (ℕ × ℕ × ℕ × ℕ)) : List FaceBox :=
  faces_cv.map (fun r =>
    { x := (r.1 : ℤ), y := (r.2.1 : ℤ), width := (r.2.2.1 : ℤ),
      height := (r.2.2.2 : ℤ), confidence := 9/10 })

/- ==================== ml_service.py: skin region extraction ==================== -/

/-- The region bounds `(x, y, x2, y2)` computed by
`SkinToneAnalyzer._extract_skin_region`: note that the source reassigns `x`
and `y` to the padded origins *before* computing `x2 = min(w, int(x + fw +
fw*padding))` and `y2`, so `x2`/`y2` are computed from the already-shifted
origins, exactly as transcribed here. -/
def extract_region_box (w h : ℕ) (fb : FaceBox) : ℤ × ℤ × ℤ × ℤ :=
  let padding : ℚ := 2/10
  let x := max 0 (truncQ ((fb.x : ℚ) - (fb.width : ℚ) * padding))
  let y := max 0 (truncQ ((fb.y : ℚ) - (fb.height : ℚ) * padding))
  let x2 := min (w : ℤ) (truncQ ((x : ℚ) + (fb.width : ℚ) + (fb.width : ℚ) * padding))
  let y2 := min (h : ℤ) (truncQ ((y : ℚ) + (fb.height : ℚ) + (fb.height : ℚ) * padding))
  (x, y, x2, y2)

/-- The mask-restriction step of `_extract_skin_region`: `full_mask` is zero
everywhere and copies the filtered mask on the slice
`[y:y2, x:x2]`.  `skin_mask` is the mask after the HSV range filter and the
morphological closing/opening (those OpenCV primitives supply its values). -/
def restrict_mask (skin_mask : ℕ → ℕ → ℕ) (w h : ℕ) (fb : FaceBox) : ℕ → ℕ → ℕ :=
  fun i j =>
    let b := extract_region_box w h fb
    if b.1 ≤ (j : ℤ) ∧ (j : ℤ) < b.2.2.1 ∧ b.2.1 ≤ (i : ℤ) ∧ (i : ℤ) < b.2.2.2
    then skin_mask i j else 0

/-- Spec-side padded box for claim C2, written from the spec's words: expand
the FaceBox by 20% of its width (horizontally) and 20% of its height
(vertically) on *each* side, then clip to the image bounds.  To be compared
with `extract_region_box`. -/
def spec_padded_box (w h : ℕ) (fb : FaceBox) : ℤ × ℤ × ℤ × ℤ :=
  let padding : ℚ := 2/10
  (max 0 (truncQ ((fb.x : ℚ) - (fb.width : ℚ) * padding)),
   max 0 (truncQ ((fb.y : ℚ) - (fb.height : ℚ) * padding)),
   min (w : ℤ) (truncQ ((fb.x : ℚ) + (fb.width : ℚ) + (fb.width : ℚ) * padding)),
   min (h : ℤ) (truncQ ((fb.y : ℚ) + (fb.height : ℚ) + (fb.height : ℚ) * padding)))

/-- `cv2.countNonZero` over an `h × w` mask given as a function. -/
def countNonZero (w h : ℕ) (mask : ℕ → ℕ → ℕ) : ℕ :=
  ((List.range h).map
    (fun i => ((List.range w).filter (fun j => mask i j ≠ 0)).length)).sum

/-- `image_hsv[skin_mask == 255]`: the HSV triples of the pixels whose mask
value is exactly 255, in row-major order. -/
def masked_pixels (w h : ℕ) (mask : ℕ → ℕ → ℕ)
    (hsv : ℕ → ℕ → ℚ × ℚ × ℚ) : List (ℚ × ℚ × ℚ) :=
  (List.range h).flatMap
    (fun i => ((List.range w).filter (fun j => mask i j = 255)).map (fun j => hsv i j))

/- ==================== ml_service.py: palettes & recommendations ==================== -/

/-- One entry of `SkinToneAnalyzer.palettes`: clothing, makeup
(foundation/lipstick/eyeshadow) and jewelry (metals/stones) hex lists. -/
structure Palette where
  clothing : List String
  foundation : List String
  lipstick : List String
  eyeshadow : List String
  metals : List String
  stones : List String
deriving DecidableEq, Repr

/-- The `('Medium', 'Neutral')` palette, also the fallback of
`_generate_recommendations`. -/
def palette_medium_neutral : Palette :=
  { clothing := ["#50C878", "#DC143C", "#FF4500", "#228B22", "#FFD700", "#FF6347"],
    foundation := ["#C9A877", "#D4A574", "#BC8F8F"],
    lipstick := ["#DC143C", "#FF4500", "#C71585"],
    eyeshadow := ["#50C878", "#FFD700", "#FF4500"],
    metals := ["#FFD700", "#B76E79"],
    stones := ["#50C878", "#FF4500"] }

/-- `SkinToneAnalyzer.palettes`: the 9 legacy (depth, undertone) entries. -/
def palettes : List ((String × String) × Palette) :=
  [(("Fair", "Warm"),
    { clothing := ["#FFB347", "#FF8C00", "#CD853F", "#DEB887", "#F4A460", "#DAA520"],
      foundation := ["#F5DEB3", "#FFE4B5", "#FFDAB9"],
      lipstick := ["#FF6347", "#FF7F50", "#E75480"],
      eyeshadow := ["#FFD700", "#FFA500", "#FF8C00"],
      metals := ["#FFD700", "#B76E79"],
      stones := ["#FF8C00", "#DAA520"] }),
   (("Fair", "Cool"),
    { clothing := ["#4B0082", "#00CED1", "#E0FFFF", "#B0E0E6", "#ADD8E6", "#87CEEB"],
      foundation := ["#E8E8E8", "#F5F5DC", "#FFFAFA"],
      lipstick := ["#FF1493", "#FF69B4", "#8B0000"],
      eyeshadow := ["#4B0082", "#8A2BE2", "#00CED1"],
      metals := ["#C0C0C0", "#E8E8E8"],
      stones := ["#00CED1", "#FF69B4"] }),
   (("Fair", "Neutral"),
    { clothing := ["#DC143C", "#FF0000", "#FFFFFF", "#000000", "#808080", "#A9A9A9"],
      foundation := ["#F5DEB3", "#FAEBD7", "#F0F8FF"],
      lipstick := ["#DC143C", "#C71585", "#FF6347"],
      eyeshadow := ["#8B008B", "#FF0000", "#006666"],
      metals := ["#FFD700", "#C0C0C0"],
      stones := ["#FF0000", "#006666"] }),
   (("Medium", "Warm"),
    { clothing := ["#8B4513", "#D2691E", "#CD853F", "#FF8C00", "#FFB347", "#DAA520"],
      foundation := ["#C9A877", "#D4A574", "#DEB887"],
      lipstick := ["#E75480", "#FF6347", "#FF8C00"],
      eyeshadow := ["#8B4513", "#CD853F", "#FFD700"],
      metals := ["#FFD700", "#B76E79"],
      stones := ["#8B4513", "#FFD700"] }),
   (("Medium", "Cool"),
    { clothing := ["#4B0082", "#008080", "#20B2AA", "#3CB371", "#66CDAA", "#00FA9A"],
      foundation := ["#C9A877", "#BC8F8F", "#A0826D"],
      lipstick := ["#8B008B", "#FF1493", "#00CED1"],
      eyeshadow := ["#483D8B", "#4169E1", "#00CED1"],
      metals := ["#C0C0C0", "#E8E8E8"],
      stones := ["#00CED1", "#50C878"] }),
   (("Medium", "Neutral"), palette_medium_neutral),
   (("Dark", "Warm"),
    { clothing := ["#FFD700", "#FFA500", "#FF8C00", "#FF6347", "#DC143C", "#8B4513"],
      foundation := ["#8B4513", "#A0522D", "#8B6914"],
      lipstick := ["#FF4500", "#FF6347", "#DC143C"],
      eyeshadow := ["#FFD700", "#FFA500", "#FF8C00"],
      metals := ["#FFD700", "#B76E79"],
      stones := ["#FFD700", "#FF4500"] }),
   (("Dark", "Cool"),
    { clothing := ["#00CED1", "#87CEEB", "#00FA9A", "#20B2AA", "#FF1493", "#FF69B4"],
      foundation := ["#3D3D3D", "#545454", "#696969"],
      lipstick := ["#FF1493", "#FF69B4", "#00CED1"],
      eyeshadow := ["#00CED1", "#87CEEB", "#FF1493"],
      metals := ["#C0C0C0", "#E8E8E8"],
      stones := ["#00CED1", "#FF1493"] }),
   (("Dark", "Neutral"),
    { clothing := ["#50C878", "#FFD700", "#FF4500", "#00CED1", "#FF1493", "#DC143C"],
      foundation := ["#704214", "#8B6914", "#A0522D"],
      lipstick := ["#FF4500", "#DC143C", "#FF1493"],
      eyeshadow := ["#50C878", "#FFD700", "#FF4500"],
      metals := ["#FFD700", "#C0C0C0"],
      stones := ["#50C878", "#FFD700"] })]

/-- `SkinToneAnalyzer._hex_to_names`: static hex-to-name dictionary with the
generic default `'Color'`. -/
def hex_to_names (hex_colors : List String) : List String :=
  let color_names : List (String × String) :=
    [("#FFB347", "Peach"), ("#FF8C00", "Dark Orange"), ("#CD853F", "Peru"),
     ("#DEB887", "Burlywood"), ("#F4A460", "Sandy Brown"), ("#DAA520", "Goldenrod"),
     ("#8B4513", "Saddle Brown"), ("#D2691E", "Chocolate"), ("#FF6347", "Tomato"),
     ("#FF7F50", "Coral"), ("#E75480", "Raspberry"), ("#FFD700", "Gold"),
     ("#FFA500", "Orange"), ("#FF4500", "Orange Red"), ("#4B0082", "Indigo"),
     ("#00CED1", "Dark Turquoise"), ("#E0FFFF", "Light Cyan"), ("#B0E0E6", "Powder Blue"),
     ("#ADD8E6", "Light Blue"), ("#87CEEB", "Sky Blue"), ("#FF1493", "Deep Pink"),
     ("#FF69B4", "Hot Pink"), ("#C71585", "Medium Violet Red"), ("#8A2BE2", "Blue Violet"),
     ("#C0C0C0", "Silver"), ("#E8E8E8", "Ghost White"), ("#50C878", "Emerald"),
     ("#008080", "Teal"), ("#20B2AA", "Light Sea Green"), ("#3CB371", "Medium Sea Green"),
     ("#66CDAA", "Medium Aquamarine"), ("#00FA9A", "Medium Spring Green"),
     ("#483D8B", "Dark Slate Blue"), ("#4169E1", "Royal Blue"), ("#228B22", "Forest Green"),
     ("#DC143C", "Crimson"), ("#FF0000", "Red"), ("#FFFFFF", "White"), ("#000000", "Black"),
     ("#808080", "Gray"), ("#A9A9A9", "Dark Gray"), ("#B76E79", "Rose Gold"),
     ("#8B6914", "Dark Yellow"), ("#A0522D", "Sienna"), ("#704214", "Sepia"),
     ("#545454", "Dark Gray"), ("#696969", "Dim Gray"), ("#3D3D3D", "Very Dark Gray")]
  hex_colors.map (fun c => (color_names.lookup c).getD "Color")

/-- `SkinToneAnalyzer._metal_names`: metal hex-to-name dictionary with the
generic default `'Metal'`. -/
def metal_names (metal_hex : List String) : List String :=
  let metal_map : List (String × String) :=
    [("#FFD700", "Gold"), ("#C0C0C0", "Silver"),
     ("#B76E79", "Rose Gold"), ("#E8E8E8", "Platinum")]
  metal_hex.map (fun m => (metal_map.lookup m).getD "Metal")

/-- A `shades`/`hex_codes` pair as produced for each makeup category. -/
structure ShadeRec where
  shades : List String
  hex_codes : List String
deriving DecidableEq, Repr

/-- The recommendation object built by
`SkinToneAnalyzer._generate_recommendations` (nested dictionaries
flattened into one structure, field names following the source keys). -/
structure Recommendations where
  clothing_best_colors : List String
  clothing_description : String
  foundation : ShadeRec
  lipstick : ShadeRec
  eyeshadow : ShadeRec
  best_metals : List String
  metal_hex : List String
  stone_colors : List String
  stone_hex : List String
deriving DecidableEq, Repr

/-- `SkinToneAnalyzer._generate_recommendations`: palette lookup keyed by
`(depth, undertone)` with the `('Medium', 'Neutral')` entry as default. -/
def generate_recommendations (depth undertone : String) : Recommendations :=
  let palette := (palettes.lookup (depth, undertone)).getD palette_medium_neutral
  { clothing_best_colors := palette.clothing.take 6,
    clothing_description :=
      "Recommended clothing colors for " ++ depth ++ " skin with " ++ undertone ++ " undertone",
    foundation := { shades := hex_to_names palette.foundation, hex_codes := palette.foundation },
    lipstick := { shades := hex_to_names palette.lipstick, hex_codes := palette.lipstick },
    eyeshadow := { shades := hex_to_names palette.eyeshadow, hex_codes := palette.eyeshadow },
    best_metals := metal_names palette.metals,
    metal_hex := palette.metals,
    stone_colors := hex_to_names palette.stones,
    stone_hex := palette.stones }

/- ==================== ml_service.py: pipeline & responses ==================== -/

/-- The `skin_analysis` sub-dictionary of a successful response. -/
structure SkinAnalysis where
  depth : String
  undertone : String
  confidence : ℚ
deriving DecidableEq, Repr

/-- The `analysis_details` sub-dictionary of a successful response. -/
structure AnalysisDetails where
  hue : ℚ
  saturation : ℚ
  brightness : ℚ
  skin_pixels_detected : ℕ
  undertone_hue : ℚ
deriving DecidableEq, Repr

/-- The dictionary returned by `analyze_skin_tone`: error responses carry
`status`/`message` and `None` analysis fields, success responses carry the
three analysis objects and no `status`/`message` keys. -/
structure Response where
  status : Option String
  message : Option String
  skin_analysis : Option SkinAnalysis
  recommendations : Option Recommendations
  analysis_details : Option AnalysisDetails
deriving Repr

/-- `SkinToneAnalyzer._error_response`: status `"error"`, the message, and
`None` for both `skin_analysis` and `recommendations`. -/
def error_response (message : String) : Response :=
  { status := some "error", message := some message,
    skin_analysis := none, recommendations := none, analysis_details := none }

/-- `SkinToneAnalyzer.analyze_skin_tone`.  The embedding is parametrised by
the image size, the HSV image, the post-filter/morphology skin mask (see the
header comment), the detected face list, and the ambient `np.std` routine;
the control flow and every computation written in the source method are
transcribed: empty face list → error; restricted-mask nonzero count below
100 → error; otherwise classify and assemble the full response. -/
def analyze_skin_tone (np_std : List ℚ → ℚ) (w h : ℕ)
    (image_hsv : ℕ → ℕ → ℚ × ℚ × ℚ) (filtered_mask : ℕ → ℕ → ℕ)
    (faces : List FaceBox) : Response :=
  match faces with
  | [] => error_response "No face detected in image"
  | face_box :: _ =>
    let skin_mask := restrict_mask filtered_mask w h face_box
    if countNonZero w h skin_mask < 100 then
      error_response "Could not extract sufficient skin region"
    else
      let skin_pixels := masked_pixels w h skin_mask image_hsv
      let hue_values := skin_pixels.map (fun p => p.1)
      let saturation_values := skin_pixels.map (fun p => p.2.1)
      let value_values := skin_pixels.map (fun p => p.2.2)
      let depth := classify_depth value_values
      let ut := classify_undertone hue_values
      let confidence := calculate_confidence (np_std value_values) hue_values.length
      { status := none, message := none,
        skin_analysis := some
          { depth := depth, undertone := ut.1, confidence := pyRound confidence 2 },
        recommendations := some (generate_recommendations depth ut.1),
        analysis_details := some
          { hue := pyRound (np_mean hue_values) 1,
            saturation := pyRound (np_mean saturation_values / 255) 2,
            brightness := pyRound (np_mean value_values / 255) 2,
            skin_pixels_detected := countNonZero w h skin_mask,
            undertone_hue := pyRound ut.2 1 } }

/- ==================== Helper lemmas ==================== -/

theorem pyMod_eq_self {a b : ℚ} (h0 : 0 ≤ a) (hab : a < b) : pyMod a b = a := by
  have hb : 0 < b := lt_of_le_of_lt h0 hab
  have hfloor : ⌊a / b⌋ = 0 := by
    rw [Int.floor_eq_zero_iff]
    constructor
    · positivity
    · rw [div_lt_one hb]
      exact hab
  simp [pyMod, hfloor]

theorem pyMod_add_int_mul (a b : ℚ) (k : ℤ) (hb : b ≠ 0) :
    pyMod (a + b * k) b = pyMod a b := by
  unfold pyMod
  have hdiv : (a + b * k) / b = a / b + (k : ℚ) := by
    field_simp
    ring
  rw [hdiv, Int.floor_add_int]
  push_cast
  ring

theorem from_hue_congr {a b : ℚ} (h : pyMod a 360 = pyMod b 360) :
    Undertone.from_hue a = Undertone.from_hue b := by
  unfold Undertone.from_hue
  rw [h]

theorem confidence_nonneg (s : ℚ) (n : ℕ) : 0 ≤ calculate_confidence s n := by
  unfold calculate_confidence
  split_ifs
  · exact le_min (by norm_num) (by positivity)
  · exact le_max_left 0 _

theorem confidence_le_one {s : ℚ} (hs : 0 ≤ s) (n : ℕ) :
    calculate_confidence s n ≤ 1 := by
  unfold calculate_confidence
  have hdiv : (0 : ℚ) ≤ s / 255 := by positivity
  split_ifs
  · exact min_le_left 1 _
  · exact max_le (by norm_num) (by linarith)

theorem confidence_antitone {s1 s2 : ℚ} (n : ℕ) (h : s1 ≤ s2) :
    calculate_confidence s2 n ≤ calculate_confidence s1 n := by
  unfold calculate_confidence
  have hdiv : s1 / 255 ≤ s2 / 255 := by gcongr
  have hbase : max 0 (1 - s2 / 255) ≤ max 0 (1 - s1 / 255) :=
    max_le_max le_rfl (by linarith)
  split_ifs
  · exact min_le_min le_rfl (by linarith)
  · exact hbase

/- ==================== Claim theorems ==================== -/

/-- C3: for every non-empty array of V-channel samples, the legacy depth
classifier is the step function of the mean Value `v`: `v > 166` gives Fair,
`115 < v ≤ 166` gives Medium, `v ≤ 115` gives Dark; in particular `v = 166`
gives Medium. -/
theorem C3_classify_depth_step (value_values : List ℚ) (hne : value_values ≠ []) :
    (np_mean value_values > 166 → classify_depth value_values = "Fair") ∧
    (115 < np_mean value_values ∧ np_mean value_values ≤ 166 →
      classify_depth value_values = "Medium") ∧
    (np_mean value_values ≤ 115 → classify_depth value_values = "Dark") ∧
    (np_mean value_values = 166 → classify_depth value_values = "Medium") := by
  refine ⟨fun h => ?_, fun h => ?_, fun h => ?_, fun h => ?_⟩ <;>
    (simp only [classify_depth]; split_ifs with h1 h2) <;>
      first
        | rfl
        | (exfalso; rcases h with ⟨ha, hb⟩; linarith)
        | (exfalso; linarith)

/-- Witness for C3 at the concrete sample lists `[200]`, `[120, 160]`,
`[100]` and `[166]`. -/
theorem C3_classify_depth_step_witness :
    classify_depth [200] = "Fair" ∧ classify_depth [120, 160] = "Medium" ∧
    classify_depth [100] = "Dark" ∧ classify_depth [166] = "Medium" := by
  refine ⟨?_, ?_, ?_, ?_⟩
  · exact (C3_classify_depth_step [200] (by simp)).1 (by norm_num [np_mean])
  · exact (C3_classify_depth_step [120, 160] (by simp)).2.1
      (by norm_num [np_mean])
  · exact (C3_classify_depth_step [100] (by simp)).2.2.1 (by norm_num [np_mean])
  · exact (C3_classify_depth_step [166] (by simp)).2.2.2 (by norm_num [np_mean])

/-- C4: the confidence score equals `max 0 (1 - stdDev/255)` plus a flat 0.1
bonus capped at 1.0 when more than 500 pixels are masked; it always lies in
`[0, 1]`, and for a fixed pixel count it is monotonically non-increasing in
the standard deviation (in particular confidence at stdDev 0 dominates
confidence at stdDev 50). -/
theorem C4_confidence_properties (value_std : ℚ) (num_pixels : ℕ)
    (hstd : 0 ≤ value_std) :
    (num_pixels > 500 →
      calculate_confidence value_std num_pixels =
        min 1 (max 0 (1 - value_std / 255) + 1/10)) ∧
    (num_pixels ≤ 500 →
      calculate_confidence value_std num_pixels = max 0 (1 - value_std / 255)) ∧
    0 ≤ calculate_confidence value_std num_pixels ∧
    calculate_confidence value_std num_pixels ≤ 1 ∧
    (∀ s2 : ℚ, value_std ≤ s2 →
      calculate_confidence s2 num_pixels ≤ calculate_confidence value_std num_pixels) ∧
    calculate_confidence 50 num_pixels ≤ calculate_confidence 0 num_pixels := by
  refine ⟨fun hgt => ?_, fun hle => ?_, confidence_nonneg _ _,
    confidence_le_one hstd _, fun s2 hs2 => confidence_antitone _ hs2,
    confidence_antitone _ (by norm_num)⟩
  · unfold calculate_confidence
    rw [if_pos hgt]
  · unfold calculate_confidence
    rw [if_neg (by omega)]

/-- Witness for C4 at stdDev 51/2 and 600 pixels. -/
theorem C4_confidence_properties_witness :
    calculate_confidence (51/2) 600 = min 1 (max 0 (1 - (51/2) / 255) + 1/10) ∧
    0 ≤ calculate_confidence (51/2) 600 ∧
    calculate_confidence (51/2) 600 ≤ 1 ∧
    calculate_confidence 50 600 ≤ calculate_confidence (51/2) 600 := by
  have h := C4_confidence_properties (51/2) 600 (by norm_num)
  exact ⟨h.1 (by norm_num), h.2.2.1, h.2.2.2.1, h.2.2.2.2.1 50 (by norm_num)⟩

/-- C6: the extended depth classifier returns VeryFair for `v > 210`, Fair
for `180 < v ≤ 210`, Medium for `140 < v ≤ 180`, Tan for `100 < v ≤ 140`,
Dark for `60 < v ≤ 100` and Deep otherwise; mean Value 215 yields VeryFair
with ordinal level 1 and brightness-percentile band `(82, 100)`. -/
theorem C6_extended_depth (v : ℤ) :
    (v > 210 → SkinDepth.from_value v = .VERY_FAIR) ∧
    (180 < v ∧ v ≤ 210 → SkinDepth.from_value v = .FAIR) ∧
    (140 < v ∧ v ≤ 180 → SkinDepth.from_value v = .MEDIUM) ∧
    (100 < v ∧ v ≤ 140 → SkinDepth.from_value v = .TAN) ∧
    (60 < v ∧ v ≤ 100 → SkinDepth.from_value v = .DARK) ∧
    (v ≤ 60 → SkinDepth.from_value v = .DEEP) ∧
    classify_depth_extended [215] = (.VERY_FAIR, 1, (82, 100)) := by
  have hscenario : classify_depth_extended [215] = (.VERY_FAIR, 1, (82, 100)) := by
    have hmean : np_mean [215] = 215 := by
      simp [np_mean]
    have htr : truncQ (215 : ℚ) = 215 := by
      norm_num [truncQ]
    simp only [classify_depth_extended, hmean, htr]
    decide
  refine ⟨fun h => ?_, fun h => ?_, fun h => ?_, fun h => ?_, fun h => ?_,
    fun h => ?_, hscenario⟩ <;>
    (unfold SkinDepth.from_value; split_ifs) <;>
      first
        | rfl
        | (exfalso; omega)

/-- Witness for C6 at `v = 215` and at one value of each remaining band. -/
theorem C6_extended_depth_witness :
    SkinDepth.from_value 215 = .VERY_FAIR ∧
    SkinDepth.from_value 200 = .FAIR ∧
    SkinDepth.from_value 150 = .MEDIUM ∧
    SkinDepth.from_value 120 = .TAN ∧
    SkinDepth.from_value 80 = .DARK ∧
    SkinDepth.from_value 40 = .DEEP := by
  refine ⟨(C6_extended_depth 215).1 (by norm_num),
    (C6_extended_depth 200).2.1 (by norm_num),
    (C6_extended_depth 150).2.2.1 (by norm_num),
    (C6_extended_depth 120).2.2.2.1 (by norm_num),
    (C6_extended_depth 80).2.2.2.2.1 (by norm_num),
    (C6_extended_depth 40).2.2.2.2.2.1 (by norm_num)⟩

/-- C7: for every mean hue `h ∈ [0, 360)` the extended undertone classifier
returns exactly one of the five undertones, following the priority order
`[0,30] → Warm`, `(30,60] → Neutral`, `(60,90] → Olive`, `(90,120] → Golden`,
`[330,360) → Cool`, otherwise Neutral, and the classification is invariant
under replacing `h` by `h + 360k` for any integer `k`. -/
theorem C7_extended_undertone (h : ℚ) (h0 : 0 ≤ h) (hlt : h < 360) :
    (h ≤ 30 → Undertone.from_hue h = .WARM) ∧
    (30 < h ∧ h ≤ 60 → Undertone.from_hue h = .NEUTRAL) ∧
    (60 < h ∧ h ≤ 90 → Undertone.from_hue h = .OLIVE) ∧
    (90 < h ∧ h ≤ 120 → Undertone.from_hue h = .GOLDEN) ∧
    (120 < h ∧ h < 330 → Undertone.from_hue h = .NEUTRAL) ∧
    (330 ≤ h → Undertone.from_hue h = .COOL) ∧
    (∃ u : Undertone, Undertone.from_hue h = u) ∧
    (∀ k : ℤ, Undertone.from_hue (h + 360 * k) = Undertone.from_hue h) := by
  have hmod : pyMod h 360 = h := pyMod_eq_self h0 hlt
  refine ⟨fun hc => ?_, fun hc => ?_, fun hc => ?_, fun hc => ?_, fun hc => ?_,
    fun hc => ?_, ⟨_, rfl⟩,
    fun k => from_hue_congr (pyMod_add_int_mul h 360 k (by norm_num))⟩
  · unfold Undertone.from_hue
    rw [hmod, if_pos (Or.inl ⟨h0, hc⟩)]
  · have c1 : ¬((0 ≤ h ∧ h ≤ 30) ∨ h = 360) := by
      rintro (⟨ha, hb⟩ | he) <;> linarith [hc.1, hc.2]
    unfold Undertone.from_hue
    rw [hmod, if_neg c1, if_pos hc]
  · have c1 : ¬((0 ≤ h ∧ h ≤ 30) ∨ h = 360) := by
      rintro (⟨ha, hb⟩ | he) <;> linarith [hc.1, hc.2]
    have c2 : ¬(30 < h ∧ h ≤ 60) := by
      rintro ⟨ha, hb⟩
      linarith [hc.1]
    unfold Undertone.from_hue
    rw [hmod, if_neg c1, if_neg c2, if_pos hc]
  · have c1 : ¬((0 ≤ h ∧ h ≤ 30) ∨ h = 360) := by
      rintro (⟨ha, hb⟩ | he) <;> linarith [hc.1, hc.2]
    have c2 : ¬(30 < h ∧ h ≤ 60) := by
      rintro ⟨ha, hb⟩
      linarith [hc.1]
    have c3 : ¬(60 < h ∧ h ≤ 90) := by
      rintro ⟨ha, hb⟩
      linarith [hc.1]
    unfold Undertone.from_hue
    rw [hmod, if_neg c1, if_neg c2, if_neg c3, if_pos hc]
  · have c1 : ¬((0 ≤ h ∧ h ≤ 30) ∨ h = 360) := by
      rintro (⟨ha, hb⟩ | he) <;> linarith [hc.1, hc.2]
    have c2 : ¬(30 < h ∧ h ≤ 60) := by
      rintro ⟨ha, hb⟩
      linarith [hc.1]
    have c3 : ¬(60 < h ∧ h ≤ 90) := by
      rintro ⟨ha, hb⟩
      linarith [hc.1]
    have c4 : ¬(90 < h ∧ h ≤ 120) := by
      rintro ⟨ha, hb⟩
      linarith [hc.1]
    have c5 : ¬(330 ≤ h ∧ h < 360) := by
      rintro ⟨ha, hb⟩
      linarith [hc.2]
    unfold Undertone.from_hue
    rw [hmod, if_neg c1, if_neg c2, if_neg c3, if_neg c4, if_neg c5]
  · have c1 : ¬((0 ≤ h ∧ h ≤ 30) ∨ h = 360) := by
      rintro (⟨ha, hb⟩ | he) <;> linarith
    have c2 : ¬(30 < h ∧ h ≤ 60) := by
      rintro ⟨ha, hb⟩
      linarith
    have c3 : ¬(60 < h ∧ h ≤ 90) := by
      rintro ⟨ha, hb⟩
      linarith
    have c4 : ¬(90 < h ∧ h ≤ 120) := by
      rintro ⟨ha, hb⟩
      linarith
    unfold Undertone.from_hue
    rw [hmod, if_neg c1, if_neg c2, if_neg c3, if_neg c4, if_pos ⟨hc, hlt⟩]

/-- Witness for C7 at one hue in each band and invariance at `k = 3`. -/
theorem C7_extended_undertone_witness :
    Undertone.from_hue 15 = .WARM ∧ Undertone.from_hue 45 = .NEUTRAL ∧
    Undertone.from_hue 75 = .OLIVE ∧ Undertone.from_hue 105 = .GOLDEN ∧
    Undertone.from_hue 200 = .NEUTRAL ∧ Undertone.from_hue 345 = .COOL ∧
    Undertone.from_hue (45 + 360 * ((3 : ℤ) : ℚ)) = Undertone.from_hue 45 := by
  refine ⟨(C7_extended_undertone 15 (by norm_num) (by norm_num)).1 (by norm_num),
    (C7_extended_undertone 45 (by norm_num) (by norm_num)).2.1
      ⟨by norm_num, by norm_num⟩,
    (C7_extended_undertone 75 (by norm_num) (by norm_num)).2.2.1
      ⟨by norm_num, by norm_num⟩,
    (C7_extended_undertone 105 (by norm_num) (by norm_num)).2.2.2.1
      ⟨by norm_num, by norm_num⟩,
    (C7_extended_undertone 200 (by norm_num) (by norm_num)).2.2.2.2.1
      ⟨by norm_num, by norm_num⟩,
    (C7_extended_undertone 345 (by norm_num) (by norm_num)).2.2.2.2.2.1
      (by norm_num),
    (C7_extended_undertone 45 (by norm_num) (by norm_num)).2.2.2.2.2.2.2 3⟩

/-- C8: the legacy-compatibility mapping is deterministic and total over all
30 extended (Depth, Undertone) combinations and equals the fixed table
VeryFair/Fair → Fair, Medium/Tan → Medium, Dark/Deep → Dark,
Warm/Golden → Warm, Cool → Cool, Neutral/Olive → Neutral. -/
theorem C8_map_to_legacy_table (d : SkinDepth) (u : Undertone) :
    map_to_legacy d u = (spec_legacy_depth d, spec_legacy_undertone u) := by
  cases d <;> cases u <;> rfl

/-- C1 (code-bug evidence): for the OpenCV hue sample `[100]` the mean hue
in degrees is 200, which the claim (and the classifier's own documented
ranges, `COOL_HUE_RANGE = (340, 360)`) places strictly between 60 and 340
and hence Neutral; the implementation instead "normalizes" 200 to −160 and
its cool branch (`mean_hue ≤ COOL_HUE_RANGE[1] − 360`, i.e. `mean_hue ≤ 0`)
fires, returning Cool and reporting the out-of-range hue −160. -/
theorem C1_undertone_cool_bug_eval :
    classify_undertone [100] = ("Cool", -160) ∧
    (60 : ℚ) < 200 ∧ (200 : ℚ) < 340 ∧ ("Cool" : String) ≠ "Neutral" := by
  have hdeg : ([100] : List ℚ).map (fun hv => hv / 180 * 360) = [200] := by
    norm_num
  have hmean : np_mean [200] = 200 := by
    simp [np_mean]
  refine ⟨?_, by norm_num, by norm_num, by decide⟩
  simp only [classify_undertone, hdeg, hmean]
  norm_num [WARM_HUE_RANGE, NEUTRAL_HUE_RANGE, COOL_HUE_RANGE]

/-- C2 (code-bug evidence): for a 100×100 image with face box
`x = 10, y = 10, width = 50, height = 50`, the spec's 20%-padded box is
`(0, 0, 70, 70)`, but the source computes `x2`/`y2` from the
already-shifted origin, yielding the region `(0, 0, 60, 60)`; consequently
pixel `(row 5, col 65)`, inside the claimed padded box and carrying filtered
value 255, is zeroed by the extractor. -/
theorem C2_padding_bug_eval :
    extract_region_box 100 100 ⟨10, 10, 50, 50, 9/10⟩ = (0, 0, 60, 60) ∧
    spec_padded_box 100 100 ⟨10, 10, 50, 50, 9/10⟩ = (0, 0, 70, 70) ∧
    ((0 : ℤ) ≤ 65 ∧ (65 : ℤ) < 70 ∧ (0 : ℤ) ≤ 5 ∧ (5 : ℤ) < 70) ∧
    restrict_mask (fun _ _ => 255) 100 100 ⟨10, 10, 50, 50, 9/10⟩ 5 65 = 0 ∧
    (255 : ℕ) ≠ 0 := by
  have hbox : extract_region_box 100 100 ⟨10, 10, 50, 50, 9/10⟩ = (0, 0, 60, 60) := by
    norm_num [extract_region_box, truncQ]
  refine ⟨hbox, by norm_num [spec_padded_box, truncQ], by norm_num, ?_, by norm_num⟩
  simp only [restrict_mask, hbox]
  norm_num

/-- C5: whenever the restricted skin mask of the first detected face has a
nonzero-pixel count below 100, `analyze_skin_tone` returns the
insufficient-skin-region structured error — status `"error"`, the message,
and `none` for skin_analysis, recommendations and analysis_details — for
every HSV image content and every `np.std` routine, so no depth/undertone
classification result can reach the output. -/
theorem C5_insufficient_skin_region (np_std : List ℚ → ℚ) (w h : ℕ)
    (image_hsv : ℕ → ℕ → ℚ × ℚ × ℚ) (filtered_mask : ℕ → ℕ → ℕ)
    (face_box : FaceBox) (rest : List FaceBox)
    (hcount : countNonZero w h (restrict_mask filtered_mask w h face_box) < 100) :
    analyze_skin_tone np_std w h image_hsv filtered_mask (face_box :: rest) =
      error_response "Could not extract sufficient skin region" ∧
    (analyze_skin_tone np_std w h image_hsv filtered_mask
      (face_box :: rest)).status = some "error" ∧
    (analyze_skin_tone np_std w h image_hsv filtered_mask
      (face_box :: rest)).skin_analysis = none ∧
    (analyze_skin_tone np_std w h image_hsv filtered_mask
      (face_box :: rest)).recommendations = none ∧
    (analyze_skin_tone np_std w h image_hsv filtered_mask
      (face_box :: rest)).analysis_details = none := by
  have heq : analyze_skin_tone np_std w h image_hsv filtered_mask
      (face_box :: rest) =
      error_response "Could not extract sufficient skin region" := by
    simp only [analyze_skin_tone]
    rw [if_pos hcount]
  rw [heq]
  exact ⟨rfl, rfl, rfl, rfl, rfl⟩

/-- Witness for C5: a 3×3 image whose filtered mask is identically zero. -/
theorem C5_insufficient_skin_region_witness :
    analyze_skin_tone (fun _ => 0) 3 3 (fun _ _ => (0, 0, 0)) (fun _ _ => 0)
        [{ x := 0, y := 0, width := 1, height := 1, confidence := 1 }] =
      error_response "Could not extract sufficient skin region" := by
  have hmask : restrict_mask (fun _ _ => 0) 3 3
      { x := 0, y := 0, width := 1, height := 1, confidence := 1 } =
      fun _ _ => 0 := by
    funext i j
    simp [restrict_mask]
  have hcount : countNonZero 3 3 (restrict_mask (fun _ _ => 0) 3 3
      { x := 0, y := 0, width := 1, height := 1, confidence := 1 }) < 100 := by
    rw [hmask]
    decide
  exact (C5_insufficient_skin_region (fun _ => 0) 3 3 (fun _ _ => (0, 0, 0))
    (fun _ _ => 0) _ [] hcount).1

/-- C9 (counterexample): on a 100×100 image, a MediaPipe detection with
relative bounding box `xmin = 0.9, ymin = 0.1, width = 0.5, height = 0.5`
(a face overlapping the right edge) and score 0.8 produces the FaceBox
`x = 90, width = 50`, whose right edge `x + width = 140` exceeds the image
width 100: the produced box is not clipped to the image bounds, so the
claimed invariant `x + width ≤ w` fails at this concrete input. -/
theorem C9_clipping_counterexample :
    detect_faces 100 100
        [{ xmin := 9/10, ymin := 1/10, width := 1/2, height := 1/2, score := 4/5 }] =
      [{ x := 90, y := 10, width := 50, height := 50, confidence := 4/5 }] ∧
    ¬((90 : ℤ) + 50 ≤ 100) := by
  constructor
  · simp only [detect_faces, List.map_cons, List.map_nil]
    norm_num [truncQ]
  · norm_num

/-- C9 (amended): every FaceBox from the MediaPipe path has a nonnegative
origin, and its confidence lies in [0,1] whenever every detector score does
(the score is passed through unchanged); every FaceBox from the
Haar-cascade fallback has nonnegative coordinates and sizes and the
constant confidence 0.9 ∈ [0,1].  Neither strategy clips `x + width` or
`y + height` to the image bounds. -/
theorem C9_facebox_invariants :
    (∀ (w h : ℕ) (dets : List Detection) (fb : FaceBox),
      fb ∈ detect_faces w h dets →
        0 ≤ fb.x ∧ 0 ≤ fb.y ∧
        ((∀ d ∈ dets, 0 ≤ d.score ∧ d.score ≤ 1) →
          0 ≤ fb.confidence ∧ fb.confidence ≤ 1)) ∧
    (∀ (rects : List (ℕ × ℕ × ℕ × ℕ)) (fb : FaceBox),
      fb ∈ detect_faces_cascade rects →
        0 ≤ fb.x ∧ 0 ≤ fb.y ∧ 0 ≤ fb.width ∧ 0 ≤ fb.height ∧
        0 ≤ fb.confidence ∧ fb.confidence ≤ 1) := by
  constructor
  · intro w h dets fb hmem
    simp only [detect_faces, List.mem_map] at hmem
    obtain ⟨d, hd, rfl⟩ := hmem
    exact ⟨le_max_left 0 _, le_max_left 0 _, fun hs => hs d hd⟩
  · intro rects fb hmem
    simp only [detect_faces_cascade, List.mem_map] at hmem
    obtain ⟨r, hr, rfl⟩ := hmem
    refine ⟨Int.natCast_nonneg _, Int.natCast_nonneg _, Int.natCast_nonneg _,
      Int.natCast_nonneg _, by norm_num, by norm_num⟩

/-- Witness for C9 (amended) at one concrete detection and one cascade
rectangle. -/
theorem C9_facebox_invariants_witness :
    (0 ≤ (FaceBox.mk 0 0 50 50 (4/5)).x ∧ 0 ≤ (FaceBox.mk 0 0 50 50 (4/5)).y ∧
      ((∀ d ∈ [Detection.mk 0 0 (1/2) (1/2) (4/5)], 0 ≤ d.score ∧ d.score ≤ 1) →
        0 ≤ (FaceBox.mk 0 0 50 50 (4/5)).confidence ∧
        (FaceBox.mk 0 0 50 50 (4/5)).confidence ≤ 1)) ∧
    (0 ≤ (FaceBox.mk 1 2 3 4 (9/10)).x ∧ 0 ≤ (FaceBox.mk 1 2 3 4 (9/10)).y ∧
      0 ≤ (FaceBox.mk 1 2 3 4 (9/10)).width ∧ 0 ≤ (FaceBox.mk 1 2 3 4 (9/10)).height ∧
      0 ≤ (FaceBox.mk 1 2 3 4 (9/10)).confidence ∧
      (FaceBox.mk 1 2 3 4 (9/10)).confidence ≤ 1) := by
  constructor
  · refine C9_facebox_invariants.1 100 100 [Detection.mk 0 0 (1/2) (1/2) (4/5)]
      (FaceBox.mk 0 0 50 50 (4/5)) ?_
    simp only [detect_faces, List.map_cons, List.map_nil]
    norm_num [truncQ]
  · refine C9_facebox_invariants.2 [(1, 2, 3, 4)] (FaceBox.mk 1 2 3 4 (9/10)) ?_
    simp [detect_faces_cascade]

/-- C10: every FaceBox produced by the Haar-cascade fallback carries the
constant confidence 0.9, independent of the detected rectangles, while the
FaceBoxes of the MediaPipe path carry exactly the detector-reported scores
(the confidences of the produced list are the scores of the detections). -/
theorem C10_cascade_constant_confidence :
    (∀ (rects : List (ℕ × ℕ × ℕ × ℕ)) (fb : FaceBox),
      fb ∈ detect_faces_cascade rects → fb.confidence = 9/10) ∧
    (∀ (w h : ℕ) (dets : List Detection),
      (detect_faces w h dets).map FaceBox.confidence = dets.map Detection.score) := by
  constructor
  · intro rects fb hmem
    simp only [detect_faces_cascade, List.mem_map] at hmem
    obtain ⟨r, hr, rfl⟩ := hmem
    rfl
  · intro w h dets
    simp only [detect_faces, List.map_map]
    rfl

/-- Witness for C10 at one concrete rectangle list and detection list. -/
theorem C10_cascade_constant_confidence_witness :
    (FaceBox.mk 7 8 30 30 (9/10)).confidence = 9/10 ∧
    (detect_faces 10 10 [Detection.mk (1/10) (1/10) (1/5) (1/5) (3/5)]).map
      FaceBox.confidence = [3/5] := by
  constructor
  · refine C10_cascade_constant_confidence.1 [(7, 8, 30, 30)]
      (FaceBox.mk 7 8 30 30 (9/10)) ?_
    simp [detect_faces_cascade]
  · exact C10_cascade_constant_confidence.2 10 10
      [Detection.mk (1/10) (1/10) (1/5) (1/5) (3/5)]
